import Mathlib

/-!
# Verification of the stamhoofd local-first sync engine

Shallow embedding of the webshop sync engine
(`WebshopManager.ts`), the member materializer (`MemberManagerStatic`)
and the sodium sealed-box wrapper (`SodiumStatic`), together with
theorems settling the specification claims.

Conventions:
* JavaScript `Date` values are modelled as `Nat` (epoch milliseconds).
* IndexedDB object stores with a `keyPath` are modelled as association
  lists; `put` replaces the entry with the same key or appends.
* Asynchronous code is sequentialized: each async method becomes a
  function from an explicit state (plus oracles for the network and
  the platform) to a result state and trace.
* Thrown exceptions are modelled with `Option`/`Except`.
-/

namespace Stamhoofd

/-- The `Order` structure (id, number, updatedAt are the fields the sync
engine reads; `number` is non-null on fetched orders, so it is a plain
`Nat` here and the source `order.number!` assertion is implicit). -/
structure Order where
  id : String
  number : Nat
  updatedAt : Nat
  deriving Repr, DecidableEq

/-- The `TicketPrivate` structure: the fields the sync engine reads
(`id`, `secret`, `updatedAt`) plus one patchable payload field
(`checkedIn`, the example field used by the spec scenario). -/
structure TicketPrivate where
  id : String
  secret : String
  updatedAt : Nat
  checkedIn : Bool
  deriving Repr, DecidableEq

/-- Modelled from the spec: `AutoEncoderPatchType<TicketPrivate>` from the
structured-encoding framework (not part of the analyzed sources) — a partial
mutation addressed to one ticket by its uniqueness key `secret`, carrying
optional field overrides. -/
structure TicketPatch where
  secret : String
  checkedIn : Option Bool
  deriving Repr, DecidableEq

/-- Modelled from the spec: `ticket.patch(patch)` from the
structured-encoding framework — applies the field changes carried by the
patch to the ticket, leaving absent fields untouched. -/
def TicketPrivate.applyPatch (t : TicketPrivate) (p : TicketPatch) : TicketPrivate :=
  { t with checkedIn := p.checkedIn.getD t.checkedIn }

/-! ## IndexedDB object stores

Each store with a `keyPath` is an association list of records; `put`
overwrites the record with the same key (IndexedDB in-line-key put
semantics) and `delete` removes it. -/

/-- IndexedDB `put` on the `ticketPatches` store (keyPath `secret`). -/
def putPatch (store : List TicketPatch) (p : TicketPatch) : List TicketPatch :=
  if store.any (fun q => q.secret == p.secret) then
    store.map (fun q => if q.secret == p.secret then p else q)
  else
    store ++ [p]

/-- IndexedDB `delete` on the `ticketPatches` store. -/
def deletePatch (store : List TicketPatch) (secret : String) : List TicketPatch :=
  store.filter (fun q => q.secret != secret)

/-- IndexedDB `get` on the `ticketPatches` store. -/
def lookupPatch (store : List TicketPatch) (secret : String) : Option TicketPatch :=
  store.find? (fun q => q.secret == secret)

/-- IndexedDB `put` on the `tickets` store (keyPath `secret`). -/
def putTicket (store : List TicketPrivate) (t : TicketPrivate) : List TicketPrivate :=
  if store.any (fun q => q.secret == t.secret) then
    store.map (fun q => if q.secret == t.secret then t else q)
  else
    store ++ [t]

/-- IndexedDB `get` on the `tickets` store. -/
def lookupTicket (store : List TicketPrivate) (secret : String) : Option TicketPrivate :=
  store.find? (fun q => q.secret == secret)

/-- IndexedDB `put` on the `orders` store (keyPath `id`). -/
def putOrder (store : List Order) (o : Order) : List Order :=
  if store.any (fun q => q.id == o.id) then
    store.map (fun q => if q.id == o.id then o else q)
  else
    store ++ [o]

/-- `WebshopManager.storeTicketPatches`: one readwrite transaction that
puts every patch into the `ticketPatches` store. -/
def storeTicketPatches (store : List TicketPatch) (patches : List TicketPatch) :
    List TicketPatch :=
  patches.foldl putPatch store

/-- `WebshopManager.storeTickets`: one readwrite transaction over the
`tickets` and `ticketPatches` stores; for each ticket, put it into
`tickets` and (when `clearPatches`) delete any queued patch with the
same `secret`. Returns the updated pair (tickets store, patches store). -/
def storeTickets (tickets : List TicketPrivate) (ticketStore : List TicketPrivate)
    (patchStore : List TicketPatch) (clearPatches : Bool) :
    List TicketPrivate × List TicketPatch :=
  tickets.foldl
    (fun acc t =>
      (putTicket acc.1 t, if clearPatches then deletePatch acc.2 t.secret else acc.2))
    (ticketStore, patchStore)

/-- `WebshopManager.storeOrders`: one readwrite transaction that puts
every order into the `orders` store. -/
def storeOrders (store : List Order) (orders : List Order) : List Order :=
  orders.foldl putOrder store

/-! ## Sync cursors and paginated queries -/

/-- The persisted `lastFetchedTicket` value: `{ updatedAt, id }`. -/
structure TicketCursor where
  updatedAt : Nat
  id : String
  deriving Repr, DecidableEq

/-- The persisted `lastFetchedOrder` value: `{ updatedAt, number }`. -/
structure OrderCursor where
  updatedAt : Nat
  number : Nat
  deriving Repr, DecidableEq

/-- `WebshopTicketsQuery`: the cursor filter of a tickets page request. -/
structure WebshopTicketsQuery where
  updatedSince : Option Nat
  lastId : Option String
  deriving Repr, DecidableEq

/-- `WebshopOrdersQuery`: the cursor filter of an orders page request. -/
structure WebshopOrdersQuery where
  updatedSince : Option Nat
  afterNumber : Option Nat
  deriving Repr, DecidableEq

/-- `PaginatedResponse<TicketPrivate, WebshopTicketsQuery>`. -/
structure TicketsResponse where
  results : List TicketPrivate
  next : Option WebshopTicketsQuery
  deriving Repr, DecidableEq

/-- `PaginatedResponse<Order, WebshopOrdersQuery>`. -/
structure OrdersResponse where
  results : List Order
  next : Option WebshopOrdersQuery
  deriving Repr, DecidableEq

/-- The mutable fields of a `WebshopManager` instance that the sync and
flush paths touch. `lastFetchedOrder` / `lastFetchedTicket` distinguish
`undefined` (outer `none`: never loaded this process) from `null`
(`some none`: loaded, nothing synced yet). `storedTicketCursors` and
`storedOrderCursors` record, in order, every cursor persisted through
`storeSettingKey`. -/
structure ManagerState where
  isLoadingOrders : Bool
  isLoadingTickets : Bool
  savingTicketPatches : Bool
  lastFetchedOrder : Option (Option OrderCursor)
  lastFetchedTicket : Option (Option TicketCursor)
  orders : List Order
  tickets : List TicketPrivate
  ticketPatches : List TicketPatch
  storedOrderCursors : List OrderCursor
  storedTicketCursors : List TicketCursor
  deriving Repr, DecidableEq

/-- `WebshopManager.setLastFetchedTicket`: records the ticket
`updatedAt` together with its `id` and persists the pair under the
`lastFetchedTicket` settings key. -/
def setLastFetchedTicket (s : ManagerState) (ticket : TicketPrivate) : ManagerState :=
  let c : TicketCursor := ⟨ticket.updatedAt, ticket.id⟩
  { s with lastFetchedTicket := some (some c),
           storedTicketCursors := s.storedTicketCursors ++ [c] }

/-- `WebshopManager.setlastFetchedOrder`: records the order `updatedAt`
together with its `number` and persists the pair under the
`lastFetchedOrder` settings key. -/
def setlastFetchedOrder (s : ManagerState) (order : Order) : ManagerState :=
  let c : OrderCursor := ⟨order.updatedAt, order.number⟩
  { s with lastFetchedOrder := some (some c),
           storedOrderCursors := s.storedOrderCursors ++ [c] }

/-! ## The page loops

The server is modelled as a script: the list of responses it returns to
the successive page requests of one run. A run records the requests it
issued, the non-empty pages it committed, the cursor values it advanced
to, and whether the loop terminated because `next` was `null`
(`completed`) rather than because the script ran out. -/

/-- Trace of one `fetchNewTickets` invocation. -/
structure TicketsRun where
  state : ManagerState
  requests : List WebshopTicketsQuery
  commits : List (List TicketPrivate)
  advances : List TicketCursor
  completed : Bool
  deriving Repr, DecidableEq

/-- The `while (query)` loop body of `fetchNewTickets`: fetch a page
with the current query; when the page is non-empty, store the tickets
(clearing matching queued patches, the `storeTickets` default) and
advance the cursor to the last ticket of the page; continue with
`response.next`. -/
def ticketsLoop : List TicketsResponse → Option WebshopTicketsQuery → TicketsRun → TicketsRun
  | _, none, r => { r with completed := true }
  | [], some q, r => { r with requests := r.requests ++ [q], completed := false }
  | resp :: rest, some q, r =>
    let r1 := { r with requests := r.requests ++ [q] }
    let r2 :=
      match resp.results.getLast? with
      | none => r1
      | some last =>
        let pair := storeTickets resp.results r1.state.tickets r1.state.ticketPatches true
        let s1 := { r1.state with tickets := pair.1, ticketPatches := pair.2 }
        let s2 := setLastFetchedTicket s1 last
        { r1 with state := s2, commits := r1.commits ++ [resp.results],
                  advances := r1.advances ++ [⟨last.updatedAt, last.id⟩] }
    ticketsLoop rest resp.next r2

/-- `WebshopManager.fetchNewTickets`: guarded by `isLoadingTickets`;
loads the persisted cursor once (`undefined` only; a read failure falls
back to `null`); builds the initial query from the cursor (or an empty
query on reset); drains pages; the `finally` block then assigns
`this.isLoadingOrders = false` — exactly as the source does. -/
def fetchNewTickets (pages : List TicketsResponse)
    (readLastFetchedTicket : Except Unit (Option TicketCursor))
    (reset : Bool) (s : ManagerState) : TicketsRun :=
  if s.isLoadingTickets then
    ⟨s, [], [], [], false⟩
  else
    let s1 := { s with isLoadingTickets := true }
    let s2 :=
      match s1.lastFetchedTicket with
      | some _ => s1
      | none =>
        match readLastFetchedTicket with
        | .ok v => { s1 with lastFetchedTicket := some v }
        | .error _ => { s1 with lastFetchedTicket := some none }
    let query : WebshopTicketsQuery :=
      if reset then ⟨none, none⟩
      else
        match s2.lastFetchedTicket with
        | some (some c) => ⟨some c.updatedAt, some c.id⟩
        | _ => ⟨none, none⟩
    let r := ticketsLoop pages (some query) ⟨s2, [], [], [], false⟩
    { r with state := { r.state with isLoadingOrders := false } }

/-- Trace of one `fetchNewOrders` invocation. -/
structure OrdersRun where
  state : ManagerState
  requests : List WebshopOrdersQuery
  commits : List (List Order)
  advances : List OrderCursor
  completed : Bool
  deriving Repr, DecidableEq

/-- The `while (query)` loop body of `fetchNewOrders`. -/
def ordersLoop : List OrdersResponse → Option WebshopOrdersQuery → OrdersRun → OrdersRun
  | _, none, r => { r with completed := true }
  | [], some q, r => { r with requests := r.requests ++ [q], completed := false }
  | resp :: rest, some q, r =>
    let r1 := { r with requests := r.requests ++ [q] }
    let r2 :=
      match resp.results.getLast? with
      | none => r1
      | some last =>
        let s1 := { r1.state with orders := storeOrders r1.state.orders resp.results }
        let s2 := setlastFetchedOrder s1 last
        { r1 with state := s2, commits := r1.commits ++ [resp.results],
                  advances := r1.advances ++ [⟨last.updatedAt, last.number⟩] }
    ordersLoop rest resp.next r2

/-- `WebshopManager.fetchNewOrders`: guarded by `isLoadingOrders`; loads
the persisted cursor once (when not resetting and still `undefined`);
builds the initial query; drains pages; the `finally` block clears
`isLoadingOrders`. -/
def fetchNewOrders (pages : List OrdersResponse)
    (readLastFetchedOrder : Except Unit (Option OrderCursor))
    (reset : Bool) (s : ManagerState) : OrdersRun :=
  if s.isLoadingOrders then
    ⟨s, [], [], [], false⟩
  else
    let s1 := { s with isLoadingOrders := true }
    let s2 :=
      if reset then s1
      else
        match s1.lastFetchedOrder with
        | some _ => s1
        | none =>
          match readLastFetchedOrder with
          | .ok v => { s1 with lastFetchedOrder := some v }
          | .error _ => { s1 with lastFetchedOrder := some none }
    let query : WebshopOrdersQuery :=
      if reset then ⟨none, none⟩
      else
        match s2.lastFetchedOrder with
        | some (some c) => ⟨some c.updatedAt, some c.number⟩
        | _ => ⟨none, none⟩
    let r := ordersLoop pages (some query) ⟨s2, [], [], [], false⟩
    { r with state := { r.state with isLoadingOrders := false } }

/-! ## The patch flush -/

/-- Outcome of the batch PATCH request issued by `patchTickets`:
success with the authoritative tickets, a connectivity failure
(`Request.isNetworkError`), or any other error. -/
inductive PatchResult where
  | success (tickets : List TicketPrivate)
  | networkError
  | otherError (code : Nat)
  deriving Repr, DecidableEq

/-- Observable actions of one `trySavePatches` invocation. -/
inductive FlushEvent where
  | readQueue
  | request (patches : List TicketPatch)
  deriving Repr, DecidableEq

/-- `WebshopManager.trySavePatches`: a no-op while `savingTicketPatches`
is set; otherwise reads the full patch queue and, when non-empty,
submits it via `patchTickets` (which on success stores the returned
tickets and clears their queue entries). A connectivity failure is
swallowed; any other error clears the guard and propagates (the
returned `Option Nat` is the thrown error). The event list records the
queue read and the network request. -/
def trySavePatches (net : List TicketPatch → PatchResult) (s : ManagerState) :
    ManagerState × Option Nat × List FlushEvent :=
  if s.savingTicketPatches then
    (s, none, [])
  else
    let s1 := { s with savingTicketPatches := true }
    let patches := s1.ticketPatches
    if patches.isEmpty then
      ({ s1 with savingTicketPatches := false }, none, [FlushEvent.readQueue])
    else
      match net patches with
      | .success tickets =>
        let pair := storeTickets tickets s1.tickets s1.ticketPatches true
        ({ s1 with tickets := pair.1, ticketPatches := pair.2,
                   savingTicketPatches := false },
         none, [FlushEvent.readQueue, FlushEvent.request patches])
      | .networkError =>
        ({ s1 with savingTicketPatches := false }, none,
         [FlushEvent.readQueue, FlushEvent.request patches])
      | .otherError e =>
        ({ s1 with savingTicketPatches := false }, some e,
         [FlushEvent.readQueue, FlushEvent.request patches])

/-- `WebshopManager.getTicketFromDatabase`: looks the ticket up by
`secret`; absent ticket resolves `undefined`; with `withPatches`, a
queued patch for the same secret is applied to the stored baseline. -/
def getTicketFromDatabase (tickets : List TicketPrivate) (patches : List TicketPatch)
    (secret : String) (withPatches : Bool) : Option TicketPrivate :=
  match lookupTicket tickets secret with
  | none => none
  | some ticket =>
    if withPatches then
      match lookupPatch patches secret with
      | none => some ticket
      | some p => some (ticket.applyPatch p)
    else
      some ticket

/-! ## The schema upgrade handler (`getDatabase`, `onupgradeneeded`) -/

/-- One IndexedDB object store: its configured key path (`none` for the
out-of-line-key `settings` store) and its rows (opaque here). -/
structure ObjectStoreState where
  keyPath : Option String
  rows : List String
  deriving Repr, DecidableEq

/-- The four object stores of one `webshop-<id>` database; `none` means
the store does not exist yet. -/
structure WebshopDatabase where
  orders : Option ObjectStoreState
  tickets : Option ObjectStoreState
  ticketPatches : Option ObjectStoreState
  settings : Option ObjectStoreState
  deriving Repr, DecidableEq

/-- `IDBObjectStore.clear`: drops every row, keeps the store. -/
def clearStore (s : Option ObjectStoreState) : Option ObjectStoreState :=
  s.map (fun st => { st with rows := [] })

/-- The `onupgradeneeded` handler of `WebshopManager.getDatabase`: below
version 1 it creates the four object stores (`orders` keyed by `id`,
`tickets` and `ticketPatches` keyed by `secret`, `settings` with
out-of-line keys); for any other version transition it clears all four
stores. -/
def onUpgradeNeeded (oldVersion : Nat) (db : WebshopDatabase) : WebshopDatabase :=
  if oldVersion < 1 then
    { orders := some ⟨some "id", []⟩,
      tickets := some ⟨some "secret", []⟩,
      ticketPatches := some ⟨some "secret", []⟩,
      settings := some ⟨none, []⟩ }
  else
    { orders := clearStore db.orders,
      tickets := clearStore db.tickets,
      ticketPatches := clearStore db.ticketPatches,
      settings := clearStore db.settings }

/-! ## The encrypted-member materializer (`MemberManagerStatic`)

The decrypt pipeline of one item — `Sodium.unsealMessage`, then
`JSON.parse`, then the `VersionBoxDecoder` schema decode, each of which
may throw — is abstracted as one oracle `unsealDecode : String → Option
MemberDetails` (with the borrowed key pair already bound); `none` models
a throw anywhere in the pipeline, caught by the per-item handler. -/

/-- `MemberDetails`: the decrypted sensitive payload (opaque here). -/
structure MemberDetails where
  raw : String
  deriving Repr, DecidableEq

/-- `EncryptedMember`: wire shape with the nullable sealed envelope. -/
structure EncryptedMember where
  id : String
  publicKey : String
  encryptedForOrganization : Option String
  deriving Repr, DecidableEq

/-- `Member`: materialized entity; `details` is absent when the envelope
was missing or failed to decrypt. -/
structure Member where
  id : String
  publicKey : String
  details : Option MemberDetails
  deriving Repr, DecidableEq

/-- `Registration`: cross-reference from a member to a group. -/
structure Registration where
  id : String
  groupId : String
  deriving Repr, DecidableEq

/-- `Group` (only the id matters to the materializer). -/
structure Group where
  id : String
  deriving Repr, DecidableEq

/-- `MemberWithRegistrations`: materialized entity plus registrations
and resolved groups. -/
structure MemberWithRegistrations where
  id : String
  publicKey : String
  details : Option MemberDetails
  registrations : List Registration
  groups : List Group
  deriving Repr, DecidableEq

/-- `EncryptedMemberWithRegistrations` wire shape. -/
structure EncryptedMemberWithRegistrations where
  id : String
  publicKey : String
  encryptedForOrganization : Option String
  registrations : List Registration
  deriving Repr, DecidableEq

/-- Modelled from the spec: `MemberWithRegistrations.fillGroups` (defined
in the structures package, outside the analyzed sources) — attaches the
group metadata referenced by the registrations of the member. -/
def fillGroups (groups : List Group) (m : MemberWithRegistrations) :
    MemberWithRegistrations :=
  { m with groups :=
      m.registrations.filterMap (fun r => groups.find? (fun g => g.id == r.groupId)) }

/-- The per-item branch of both decrypt loops: a missing envelope only
logs a warning and leaves the details absent; a present envelope is run
through the decrypt pipeline, with any throw caught and the details
left absent. -/
def decryptMemberDetails (unsealDecode : String → Option MemberDetails)
    (encryptedForOrganization : Option String) : Option MemberDetails :=
  match encryptedForOrganization with
  | none => none
  | some c => unsealDecode c

/-- The loop body of `decryptMembersWithoutRegistrations`: the `Member`
pushed for one input item. -/
def materializeMember (unsealDecode : String → Option MemberDetails)
    (m : EncryptedMember) : Member :=
  { id := m.id, publicKey := m.publicKey,
    details := decryptMemberDetails unsealDecode m.encryptedForOrganization }

/-- The loop body of `decryptMembers`: the `MemberWithRegistrations`
pushed for one input item, with its groups filled in. -/
def materializeMemberWR (unsealDecode : String → Option MemberDetails)
    (groups : List Group) (m : EncryptedMemberWithRegistrations) :
    MemberWithRegistrations :=
  fillGroups groups
    { id := m.id, publicKey := m.publicKey,
      details := decryptMemberDetails unsealDecode m.encryptedForOrganization,
      registrations := m.registrations, groups := [] }

/-- `MemberManagerStatic.decryptMembersWithoutRegistrations`: throws when
the organization keychain item is missing; otherwise emits one `Member`
per input, in input order, each with best-effort decrypted details. -/
def decryptMembersWithoutRegistrations (keychainItem : Option Unit)
    (unsealDecode : String → Option MemberDetails)
    (data : List EncryptedMember) : Except String (List Member) :=
  match keychainItem with
  | none => .error "Missing organization keychain"
  | some _ => .ok (data.map (materializeMember unsealDecode))

/-- `MemberManagerStatic.decryptMembers`: as the registration-free
variant, but each output also carries the registrations and has its
groups filled in from the organization groups. -/
def decryptMembers (keychainItem : Option Unit)
    (unsealDecode : String → Option MemberDetails) (groups : List Group)
    (data : List EncryptedMemberWithRegistrations) :
    Except String (List MemberWithRegistrations) :=
  match keychainItem with
  | none => .error "Missing organization keychain"
  | some _ => .ok (data.map (materializeMemberWR unsealDecode groups))

/-! ## The sodium sealed-box wrapper (`SodiumStatic`)

`crypto_box_seal` / `crypto_box_seal_open` (libsodium) and the
text-to-bytes conversions of `Buffer` (utf8 and base64) are external
collaborators, taken as parameters over an abstract text type `σ`
standing for JavaScript strings; byte buffers are `List Nat`.
`crypto_box_seal_open` throws on malformed or unauthentic input,
modelled as `Option`. -/

/-- `SodiumStatic.sealMessage`: utf8-encode the message, seal it to the
base64-decoded public key, and base64-encode the resulting ciphertext. -/
def sealMessage {σ : Type} (cryptoBoxSeal : List Nat → List Nat → List Nat)
    (utf8Encode : σ → List Nat) (base64Encode : List Nat → σ)
    (base64Decode : σ → List Nat) (message publicKey : σ) : σ :=
  base64Encode (cryptoBoxSeal (utf8Encode message) (base64Decode publicKey))

/-- `SodiumStatic.unsealMessage`: base64-decode the ciphertext and both
keys, open the sealed box, and utf8-decode the plaintext bytes. -/
def unsealMessage {σ : Type}
    (cryptoBoxSealOpen : List Nat → List Nat → List Nat → Option (List Nat))
    (utf8Decode : List Nat → σ) (base64Decode : σ → List Nat)
    (ciphertext publicKey privateKey : σ) : Option σ :=
  (cryptoBoxSealOpen (base64Decode ciphertext) (base64Decode publicKey)
    (base64Decode privateKey)).map utf8Decode

/-! ## Theorems -/

/-- Claim C7: the schema upgrade handler, run when the on-disk version is
behind the requested one, creates the four collections (`orders` keyed by
`id`, `tickets` keyed by `secret`, `ticketPatches` keyed by `secret`, and
`settings`) when the old version is below 1, and for every other version
transition clears all four collections instead of migrating their
contents (rows dropped, key paths preserved). -/
theorem onUpgradeNeeded_creates_or_clears (oldVersion : Nat) (db : WebshopDatabase) :
    (oldVersion < 1 →
      (onUpgradeNeeded oldVersion db).orders = some ⟨some "id", []⟩
      ∧ (onUpgradeNeeded oldVersion db).tickets = some ⟨some "secret", []⟩
      ∧ (onUpgradeNeeded oldVersion db).ticketPatches = some ⟨some "secret", []⟩
      ∧ (onUpgradeNeeded oldVersion db).settings = some ⟨none, []⟩)
  ∧ (1 ≤ oldVersion →
      (onUpgradeNeeded oldVersion db).orders
          = db.orders.map (fun st => { st with rows := [] })
      ∧ (onUpgradeNeeded oldVersion db).tickets
          = db.tickets.map (fun st => { st with rows := [] })
      ∧ (onUpgradeNeeded oldVersion db).ticketPatches
          = db.ticketPatches.map (fun st => { st with rows := [] })
      ∧ (onUpgradeNeeded oldVersion db).settings
          = db.settings.map (fun st => { st with rows := [] })) := by
  constructor
  · intro h
    simp [onUpgradeNeeded, h]
  · intro h
    have h1 : ¬ oldVersion < 1 := by omega
    simp [onUpgradeNeeded, h1, clearStore]

/-- Witness for claim C7 at a concrete database and both version cases. -/
theorem onUpgradeNeeded_creates_or_clears_witness :
    (onUpgradeNeeded 0 ⟨none, none, none, none⟩).orders = some ⟨some "id", []⟩
  ∧ (onUpgradeNeeded 3 ⟨some ⟨some "id", ["r"]⟩, some ⟨some "secret", ["r"]⟩,
        some ⟨some "secret", ["r"]⟩, some ⟨none, ["r"]⟩⟩).settings
      = some ⟨none, []⟩ := by
  have h0 := onUpgradeNeeded_creates_or_clears 0 ⟨none, none, none, none⟩
  have h3 := onUpgradeNeeded_creates_or_clears 3 ⟨some ⟨some "id", ["r"]⟩,
    some ⟨some "secret", ["r"]⟩, some ⟨some "secret", ["r"]⟩, some ⟨none, ["r"]⟩⟩
  exact ⟨(h0.1 (by omega)).1, by rw [(h3.2 (by omega)).2.2.2]; rfl⟩

/-- Claim C8: with a server script whose first page holds one order (id 1,
updatedAt 100, number 10) with a next filter, and whose second page is
empty with no next filter, `fetchNewOrders` commits exactly one page to
the store, advances and persists the cursor exactly once (to updatedAt
100 and that order number), does not advance the cursor for the empty
page, and terminates the loop when `next` is null. -/
theorem fetchNewOrders_two_page_scenario :
    (fetchNewOrders [⟨[⟨"1", 10, 100⟩], some ⟨some 100, none⟩⟩, ⟨[], none⟩]
        (Except.ok none) false
        ⟨false, false, false, none, none, [], [], [], [], []⟩).commits
      = [[⟨"1", 10, 100⟩]]
  ∧ (fetchNewOrders [⟨[⟨"1", 10, 100⟩], some ⟨some 100, none⟩⟩, ⟨[], none⟩]
        (Except.ok none) false
        ⟨false, false, false, none, none, [], [], [], [], []⟩).advances
      = [⟨100, 10⟩]
  ∧ (fetchNewOrders [⟨[⟨"1", 10, 100⟩], some ⟨some 100, none⟩⟩, ⟨[], none⟩]
        (Except.ok none) false
        ⟨false, false, false, none, none, [], [], [], [], []⟩).state.storedOrderCursors
      = [⟨100, 10⟩]
  ∧ (fetchNewOrders [⟨[⟨"1", 10, 100⟩], some ⟨some 100, none⟩⟩, ⟨[], none⟩]
        (Except.ok none) false
        ⟨false, false, false, none, none, [], [], [], [], []⟩).state.orders
      = [⟨"1", 10, 100⟩]
  ∧ (fetchNewOrders [⟨[⟨"1", 10, 100⟩], some ⟨some 100, none⟩⟩, ⟨[], none⟩]
        (Except.ok none) false
        ⟨false, false, false, none, none, [], [], [], [], []⟩).completed = true := by
  decide

/-- Claim C2 (evidence of divergence): after a completed `fetchNewTickets`
run from a fresh state, `isLoadingTickets` is still `true` — the
`finally` block assigns `isLoadingOrders` instead of `isLoadingTickets`,
so the tickets guard is never cleared and a second invocation returns
immediately without issuing any request; the orders-side clean-up of the
claim does hold for `fetchNewOrders`. -/
theorem fetchNewTickets_guard_never_cleared :
    (fetchNewTickets [⟨[], none⟩] (Except.ok none) false
        ⟨false, false, false, none, none, [], [], [], [], []⟩).completed = true
  ∧ (fetchNewTickets [⟨[], none⟩] (Except.ok none) false
        ⟨false, false, false, none, none, [], [], [], [], []⟩).state.isLoadingTickets = true
  ∧ (fetchNewTickets [⟨[], none⟩] (Except.ok none) false
      (fetchNewTickets [⟨[], none⟩] (Except.ok none) false
        ⟨false, false, false, none, none, [], [], [], [], []⟩).state).requests = []
  ∧ (fetchNewOrders [⟨[], none⟩] (Except.ok none) false
        ⟨false, false, false, none, none, [], [], [], [], []⟩).state.isLoadingOrders
      = false := by
  decide

/-- Claim C5: invoking `trySavePatches` while a flush is in progress
(`savingTicketPatches` set) is a no-op — the state is returned unchanged
and the event trace is empty, so the patch queue is not read and no
network request is issued. -/
theorem trySavePatches_reentrancy_guard (net : List TicketPatch → PatchResult)
    (s : ManagerState) (h : s.savingTicketPatches = true) :
    trySavePatches net s = (s, none, []) := by
  simp [trySavePatches, h]

/-- Witness for claim C5 at a concrete in-progress state. -/
theorem trySavePatches_reentrancy_guard_witness :
    trySavePatches (fun _ => PatchResult.networkError)
      ⟨false, false, true, none, none, [], [], [⟨"a", some true⟩], [], []⟩
    = (⟨false, false, true, none, none, [], [], [⟨"a", some true⟩], [], []⟩, none, []) :=
  trySavePatches_reentrancy_guard (fun _ => PatchResult.networkError)
    ⟨false, false, true, none, none, [], [], [⟨"a", some true⟩], [], []⟩ rfl

/-- Claim C4: for every message and key pair, unsealing a ciphertext
produced by sealing the message to the public key recovers the message,
given the sealed-box contract of libsodium (`crypto_box_seal_open`
inverts `crypto_box_seal` under the matching key pair) and that the
Buffer base64 and utf8 codings invert their encodings. -/
theorem sealMessage_unsealMessage_roundtrip {σ : Type}
    (cryptoBoxSeal : List Nat → List Nat → List Nat)
    (cryptoBoxSealOpen : List Nat → List Nat → List Nat → Option (List Nat))
    (utf8Encode : σ → List Nat) (utf8Decode : List Nat → σ)
    (base64Encode : List Nat → σ) (base64Decode : σ → List Nat)
    (message publicKey privateKey : σ)
    (hbase64 : ∀ bs, base64Decode (base64Encode bs) = bs)
    (hutf8 : utf8Decode (utf8Encode message) = message)
    (hseal : ∀ m, cryptoBoxSealOpen (cryptoBoxSeal m (base64Decode publicKey))
        (base64Decode publicKey) (base64Decode privateKey) = some m) :
    unsealMessage cryptoBoxSealOpen utf8Decode base64Decode
      (sealMessage cryptoBoxSeal utf8Encode base64Encode base64Decode message publicKey)
      publicKey privateKey = some message := by
  simp [sealMessage, unsealMessage, hbase64, hseal, hutf8]

/-- Witness for claim C4: a concrete sealed-box model (prepend a byte;
open drops it) with identity codings over byte-list texts. -/
theorem sealMessage_unsealMessage_roundtrip_witness :
    unsealMessage (fun c _ _ => some c.tail) (fun l => l) (fun s => s)
      (sealMessage (fun m _ => 0 :: m) (fun s => s) (fun l => l) (fun s => s)
        [1, 2, 3] [9])
      [9] [7] = some [1, 2, 3] :=
  sealMessage_unsealMessage_roundtrip (fun m _ => 0 :: m) (fun c _ _ => some c.tail)
    (fun s => s) (fun l => l) (fun l => l) (fun s => s) [1, 2, 3] [9] [7]
    (fun _ => rfl) rfl (fun _ => rfl)

/-- Claim C1 (counterexample): committing a one-ticket page whose ticket
has id `idA` and secret `secretB` persists the cursor with tie-break
`idA` — the ticket id, not its secret — so the persisted tie-break
differs from the secret of the committed ticket. -/
theorem ticket_cursor_tiebreak_is_id_not_secret :
    (fetchNewTickets [⟨[⟨"idA", "secretB", 7, false⟩], none⟩] (Except.ok none) false
        ⟨false, false, false, none, none, [], [], [], [], []⟩).commits
      = [[⟨"idA", "secretB", 7, false⟩]]
  ∧ (fetchNewTickets [⟨[⟨"idA", "secretB", 7, false⟩], none⟩] (Except.ok none) false
        ⟨false, false, false, none, none, [], [], [], [], []⟩).state.storedTicketCursors
      = [⟨7, "idA"⟩]
  ∧ ¬ ((⟨7, "idA"⟩ : TicketCursor).id
      = (⟨"idA", "secretB", 7, false⟩ : TicketPrivate).secret) := by
  decide

/-- Claim C6: when `trySavePatches` actually flushes a non-empty queue,
a connectivity failure is swallowed — no error is raised, every queued
patch is left untouched, and the guard is cleared — while any other
failure propagates to the caller with the guard still cleared. -/
theorem trySavePatches_error_policy (net : List TicketPatch → PatchResult)
    (s : ManagerState) (hguard : s.savingTicketPatches = false)
    (hne : s.ticketPatches ≠ []) :
    (net s.ticketPatches = PatchResult.networkError →
      (trySavePatches net s).2.1 = none
      ∧ (trySavePatches net s).1.ticketPatches = s.ticketPatches
      ∧ (trySavePatches net s).1.savingTicketPatches = false)
  ∧ (∀ e, net s.ticketPatches = PatchResult.otherError e →
      (trySavePatches net s).2.1 = some e
      ∧ (trySavePatches net s).1.savingTicketPatches = false) := by
  have hempty : s.ticketPatches.isEmpty = false := by
    simpa [List.isEmpty_iff] using hne
  constructor
  · intro hnet
    simp [trySavePatches, hguard, hempty, hnet]
  · intro e hnet
    simp [trySavePatches, hguard, hempty, hnet]

/-- Witness for claim C6: one offline flush (connectivity failure leaves
the single queued patch in place, raises nothing, clears the guard) and
one flush hitting a server-side error (propagated, guard cleared). -/
theorem trySavePatches_error_policy_witness :
    ((trySavePatches (fun _ => PatchResult.networkError)
        ⟨false, false, false, none, none, [], [], [⟨"secret-A", some true⟩], [], []⟩).2.1
      = none
    ∧ (trySavePatches (fun _ => PatchResult.networkError)
        ⟨false, false, false, none, none, [], [], [⟨"secret-A", some true⟩], [], []⟩).1.ticketPatches
      = [⟨"secret-A", some true⟩]
    ∧ (trySavePatches (fun _ => PatchResult.networkError)
        ⟨false, false, false, none, none, [], [], [⟨"secret-A", some true⟩], [], []⟩).1.savingTicketPatches
      = false)
  ∧ ((trySavePatches (fun _ => PatchResult.otherError 3)
        ⟨false, false, false, none, none, [], [], [⟨"secret-A", some true⟩], [], []⟩).2.1
      = some 3
    ∧ (trySavePatches (fun _ => PatchResult.otherError 3)
        ⟨false, false, false, none, none, [], [], [⟨"secret-A", some true⟩], [], []⟩).1.savingTicketPatches
      = false) := by
  have h1 := trySavePatches_error_policy (fun _ => PatchResult.networkError)
    ⟨false, false, false, none, none, [], [], [⟨"secret-A", some true⟩], [], []⟩
    rfl (by decide)
  have h2 := trySavePatches_error_policy (fun _ => PatchResult.otherError 3)
    ⟨false, false, false, none, none, [], [], [⟨"secret-A", some true⟩], [], []⟩
    rfl (by decide)
  exact ⟨h1.1 rfl, h2.2 3 rfl⟩

/-- Claim C10: `getTicketFromDatabase` with patches enabled returns the
stored ticket with the queued patch for its secret applied when one
exists, the unmodified stored ticket when no patch is queued, and
`undefined` (no error) when no ticket with that secret is stored. -/
theorem getTicketFromDatabase_reconciles (tickets : List TicketPrivate)
    (patches : List TicketPatch) (secret : String) :
    (lookupTicket tickets secret = none →
      getTicketFromDatabase tickets patches secret true = none)
  ∧ (∀ t, lookupTicket tickets secret = some t → lookupPatch patches secret = none →
      getTicketFromDatabase tickets patches secret true = some t)
  ∧ (∀ t p, lookupTicket tickets secret = some t → lookupPatch patches secret = some p →
      getTicketFromDatabase tickets patches secret true = some (t.applyPatch p)) := by
  refine ⟨?_, ?_, ?_⟩ <;> intros <;> simp_all [getTicketFromDatabase]

/-- Witness for claim C10 at concrete stores: absent ticket, ticket
without a queued patch, and ticket with a queued patch. -/
theorem getTicketFromDatabase_reconciles_witness :
    getTicketFromDatabase [] [] "s" true = none
  ∧ getTicketFromDatabase [⟨"i", "s", 1, false⟩] [] "s" true
      = some ⟨"i", "s", 1, false⟩
  ∧ getTicketFromDatabase [⟨"i", "s", 1, false⟩] [⟨"s", some true⟩] "s" true
      = some (TicketPrivate.applyPatch ⟨"i", "s", 1, false⟩ ⟨"s", some true⟩) := by
  have h1 := getTicketFromDatabase_reconciles [] [] "s"
  have h2 := getTicketFromDatabase_reconciles [⟨"i", "s", 1, false⟩] [] "s"
  have h3 := getTicketFromDatabase_reconciles [⟨"i", "s", 1, false⟩] [⟨"s", some true⟩] "s"
  exact ⟨h1.1 rfl, h2.2.1 ⟨"i", "s", 1, false⟩ (by decide) rfl,
    h3.2.2 ⟨"i", "s", 1, false⟩ ⟨"s", some true⟩ (by decide) (by decide)⟩

/-- The cursor a committed non-empty tickets page advances to: the
`updatedAt` and `id` of its last ticket (dummy value for the empty
page, which is never committed). -/
def pageCursor (page : List TicketPrivate) : TicketCursor :=
  match page.getLast? with
  | some t => ⟨t.updatedAt, t.id⟩
  | none => ⟨0, ""⟩

/-- Loop invariant of `ticketsLoop`: the cursor advances are exactly the
per-page cursors of the committed pages, and the persisted cursor trace
is the initial trace extended by those advances. -/
theorem ticketsLoop_advances_eq_commits (pages : List TicketsResponse)
    (query : Option WebshopTicketsQuery) (r : TicketsRun) (init : List TicketCursor)
    (h1 : r.advances = r.commits.map pageCursor)
    (h2 : r.state.storedTicketCursors = init ++ r.advances) :
    (ticketsLoop pages query r).advances
        = (ticketsLoop pages query r).commits.map pageCursor
    ∧ (ticketsLoop pages query r).state.storedTicketCursors
        = init ++ (ticketsLoop pages query r).advances := by
  induction pages generalizing query r with
  | nil =>
    cases query with
    | none => simpa [ticketsLoop] using ⟨h1, h2⟩
    | some q => simpa [ticketsLoop] using ⟨h1, h2⟩
  | cons resp rest ih =>
    cases query with
    | none => simpa [ticketsLoop] using ⟨h1, h2⟩
    | some q =>
      simp only [ticketsLoop]
      cases hL : resp.results.getLast? with
      | none =>
        exact ih resp.next _ (by simpa using h1) (by simpa using h2)
      | some last =>
        refine ih resp.next _ ?_ ?_
        · simp [h1, pageCursor, hL]
        · simp [setLastFetchedTicket, h2]

/-- The queries a tickets page loop issues: the starting query, then
whatever each successive response names as `next`, until `next` is null
or the script runs out. This only depends on the script and the
starting query, never on the run state. -/
def requestsOf : List TicketsResponse → Option WebshopTicketsQuery →
    List WebshopTicketsQuery
  | _, none => []
  | [], some q => [q]
  | resp :: rest, some q => q :: requestsOf rest resp.next

/-- `ticketsLoop` issues exactly the requests computed by `requestsOf`. -/
theorem ticketsLoop_requests (pages : List TicketsResponse)
    (query : Option WebshopTicketsQuery) (r : TicketsRun) :
    (ticketsLoop pages query r).requests = r.requests ++ requestsOf pages query := by
  induction pages generalizing query r with
  | nil => cases query <;> simp [ticketsLoop, requestsOf]
  | cons resp rest ih =>
    cases query with
    | none => simp [ticketsLoop, requestsOf]
    | some q =>
      simp only [ticketsLoop, requestsOf]
      cases hL : resp.results.getLast? with
      | none => rw [ih]; simp
      | some last => rw [ih]; simp

/-- Claim C1 (amended: the tie-break is the ticket id, not its secret):
for every `fetchNewTickets` run started with an in-memory cursor, every
committed non-empty page advances the persisted cursor to the last
ticket of the page — its `updatedAt` together with its `id` as the
tie-break — and the first page request carries that same tie-break field
(`lastId` equal to the cursor id). -/
theorem fetchNewTickets_cursor_records_id (pages : List TicketsResponse)
    (readLastFetchedTicket : Except Unit (Option TicketCursor))
    (s : ManagerState) (c : TicketCursor)
    (hguard : s.isLoadingTickets = false)
    (hcur : s.lastFetchedTicket = some (some c)) :
    (fetchNewTickets pages readLastFetchedTicket false s).advances
      = (fetchNewTickets pages readLastFetchedTicket false s).commits.map pageCursor
  ∧ (fetchNewTickets pages readLastFetchedTicket false s).state.storedTicketCursors
      = s.storedTicketCursors
        ++ (fetchNewTickets pages readLastFetchedTicket false s).advances
  ∧ (fetchNewTickets pages readLastFetchedTicket false s).requests.head?
      = some ⟨some c.updatedAt, some c.id⟩ := by
  have hmain := ticketsLoop_advances_eq_commits pages
    (some ⟨some c.updatedAt, some c.id⟩)
    ⟨{ s with isLoadingTickets := true }, [], [], [], false⟩
    s.storedTicketCursors (by simp) (by simp)
  have hreq := ticketsLoop_requests pages (some ⟨some c.updatedAt, some c.id⟩)
    ⟨{ s with isLoadingTickets := true }, [], [], [], false⟩
  have hhead : (requestsOf pages (some ⟨some c.updatedAt, some c.id⟩)).head?
      = some ⟨some c.updatedAt, some c.id⟩ := by
    cases pages <;> simp [requestsOf]
  simp only [hcur] at hmain hreq
  simp only [fetchNewTickets, hguard, hcur]
  simp only [Bool.false_eq_true, if_false]
  refine ⟨by simpa using hmain.1, by simpa using hmain.2, ?_⟩
  simpa [hreq] using hhead

/-- Witness for claim C1 (amended) at a concrete cursor and one-page
script. -/
theorem fetchNewTickets_cursor_records_id_witness :
    (fetchNewTickets [⟨[⟨"tid", "tsecret", 9, false⟩], none⟩] (Except.ok none) false
        ⟨false, false, false, none, some (some ⟨5, "x"⟩), [], [], [], [], []⟩).advances
      = (fetchNewTickets [⟨[⟨"tid", "tsecret", 9, false⟩], none⟩] (Except.ok none) false
        ⟨false, false, false, none, some (some ⟨5, "x"⟩), [], [], [], [], []⟩).commits.map pageCursor
  ∧ (fetchNewTickets [⟨[⟨"tid", "tsecret", 9, false⟩], none⟩] (Except.ok none) false
        ⟨false, false, false, none, some (some ⟨5, "x"⟩), [], [], [], [], []⟩).state.storedTicketCursors
      = (⟨false, false, false, none, some (some ⟨5, "x"⟩), [], [], [], [], []⟩ : ManagerState).storedTicketCursors
        ++ (fetchNewTickets [⟨[⟨"tid", "tsecret", 9, false⟩], none⟩] (Except.ok none) false
        ⟨false, false, false, none, some (some ⟨5, "x"⟩), [], [], [], [], []⟩).advances
  ∧ (fetchNewTickets [⟨[⟨"tid", "tsecret", 9, false⟩], none⟩] (Except.ok none) false
        ⟨false, false, false, none, some (some ⟨5, "x"⟩), [], [], [], [], []⟩).requests.head?
      = some ⟨some (5 : Nat), some "x"⟩ :=
  fetchNewTickets_cursor_records_id [⟨[⟨"tid", "tsecret", 9, false⟩], none⟩]
    (Except.ok none) ⟨false, false, false, none, some (some ⟨5, "x"⟩), [], [], [], [], []⟩
    ⟨5, "x"⟩ rfl rfl

/-- Auxiliary: mapping then filtering keeps every element when the
predicate holds on every image. -/
theorem length_filter_map_of_all {α β : Type} (f : α → β) (p : β → Bool) (l : List α)
    (h : ∀ a ∈ l, p (f a) = true) : ((l.map f).filter p).length = l.length := by
  induction l with
  | nil => rfl
  | cons a t ih =>
    have ha := h a (List.mem_cons_self a t)
    have ht : ∀ x ∈ t, p (f x) = true := fun x hx => h x (List.mem_cons_of_mem a hx)
    simp [List.filter_cons, ha, ih ht]

/-- Auxiliary: mapping then filtering drops every element when the
predicate fails on every image. -/
theorem filter_map_eq_nil_of_none {α β : Type} (f : α → β) (p : β → Bool) (l : List α)
    (h : ∀ a ∈ l, p (f a) = false) : (l.map f).filter p = [] := by
  induction l with
  | nil => rfl
  | cons a t ih =>
    have ha := h a (List.mem_cons_self a t)
    have ht : ∀ x ∈ t, p (f x) = false := fun x hx => h x (List.mem_cons_of_mem a hx)
    simp [List.filter_cons, ha, ih ht]

/-- Auxiliary: a map followed by a projection that the map preserves. -/
theorem map_map_proj_eq {α β : Type} (f : α → β) (idA : α → String) (idB : β → String)
    (h : ∀ a, idB (f a) = idA a) (l : List α) : (l.map f).map idB = l.map idA := by
  induction l with
  | nil => rfl
  | cons a t ih => simp [h, ih]

/-- Claim C3: a batch holding exactly one corrupted envelope (present but
failing to decrypt) among N well-formed items materializes — through
either `decryptMembersWithoutRegistrations` or `decryptMembers` — to
exactly N+1 entities, one per input in input order, N of them with the
decrypted payload present and one with it absent; the per-item failure
never aborts the batch. -/
theorem decrypt_batch_tolerates_one_corrupted
    (unsealDecode : String → Option MemberDetails) (groups : List Group)
    (pre post : List EncryptedMember) (bad : EncryptedMember)
    (pre2 post2 : List EncryptedMemberWithRegistrations)
    (bad2 : EncryptedMemberWithRegistrations)
    (hpre : ∀ m ∈ pre,
      (decryptMemberDetails unsealDecode m.encryptedForOrganization).isSome = true)
    (hpost : ∀ m ∈ post,
      (decryptMemberDetails unsealDecode m.encryptedForOrganization).isSome = true)
    (hbadenv : bad.encryptedForOrganization.isSome = true)
    (hbad : decryptMemberDetails unsealDecode bad.encryptedForOrganization = none)
    (hpre2 : ∀ m ∈ pre2,
      (decryptMemberDetails unsealDecode m.encryptedForOrganization).isSome = true)
    (hpost2 : ∀ m ∈ post2,
      (decryptMemberDetails unsealDecode m.encryptedForOrganization).isSome = true)
    (hbad2env : bad2.encryptedForOrganization.isSome = true)
    (hbad2 : decryptMemberDetails unsealDecode bad2.encryptedForOrganization = none) :
    (∀ res, decryptMembersWithoutRegistrations (some ()) unsealDecode
        (pre ++ bad :: post) = Except.ok res →
      res.length = pre.length + post.length + 1
      ∧ res.map Member.id = (pre ++ bad :: post).map EncryptedMember.id
      ∧ (res.filter (fun m => m.details.isSome)).length = pre.length + post.length
      ∧ (res.filter (fun m => m.details.isNone)).length = 1)
  ∧ (∀ res, decryptMembers (some ()) unsealDecode groups
        (pre2 ++ bad2 :: post2) = Except.ok res →
      res.length = pre2.length + post2.length + 1
      ∧ res.map MemberWithRegistrations.id
          = (pre2 ++ bad2 :: post2).map EncryptedMemberWithRegistrations.id
      ∧ (res.filter (fun m => m.details.isSome)).length = pre2.length + post2.length
      ∧ (res.filter (fun m => m.details.isNone)).length = 1) := by
  constructor
  · intro res h
    have hres : res = (pre ++ bad :: post).map (materializeMember unsealDecode) := by
      simpa [decryptMembersWithoutRegistrations] using h.symm
    subst hres
    have hpreS : ∀ m ∈ pre,
        ((materializeMember unsealDecode m).details.isSome) = true := by
      intro m hm; simpa [materializeMember] using hpre m hm
    have hpostS : ∀ m ∈ post,
        ((materializeMember unsealDecode m).details.isSome) = true := by
      intro m hm; simpa [materializeMember] using hpost m hm
    have hpreN : ∀ m ∈ pre,
        ((materializeMember unsealDecode m).details.isNone) = false := by
      intro m hm
      have := hpre m hm
      simp [materializeMember, Option.isNone_eq_false_iff, Option.isSome_iff_exists] at this ⊢
      exact this
    have hpostN : ∀ m ∈ post,
        ((materializeMember unsealDecode m).details.isNone) = false := by
      intro m hm
      have := hpost m hm
      simp [materializeMember, Option.isNone_eq_false_iff, Option.isSome_iff_exists] at this ⊢
      exact this
    refine ⟨by simp; omega, ?_, ?_, ?_⟩
    · exact map_map_proj_eq _ _ _ (fun a => rfl) _
    · have hbadS : ((materializeMember unsealDecode bad).details.isSome) = false := by
        simp [materializeMember, hbad]
      have l1 := length_filter_map_of_all (materializeMember unsealDecode)
        (fun m => m.details.isSome) pre hpreS
      have l2 := length_filter_map_of_all (materializeMember unsealDecode)
        (fun m => m.details.isSome) post hpostS
      rw [List.map_append, List.filter_append, List.map_cons, List.filter_cons]
      simp [hbadS, l1, l2]
    · have hbadN : ((materializeMember unsealDecode bad).details.isNone) = true := by
        simp [materializeMember, hbad]
      have l1 := filter_map_eq_nil_of_none (materializeMember unsealDecode)
        (fun m => m.details.isNone) pre hpreN
      have l2 := filter_map_eq_nil_of_none (materializeMember unsealDecode)
        (fun m => m.details.isNone) post hpostN
      rw [List.map_append, List.filter_append, List.map_cons, List.filter_cons]
      simp [hbadN, l1, l2]
  · intro res h
    have hres : res
        = (pre2 ++ bad2 :: post2).map (materializeMemberWR unsealDecode groups) := by
      simpa [decryptMembers] using h.symm
    subst hres
    have hpreS : ∀ m ∈ pre2,
        ((materializeMemberWR unsealDecode groups m).details.isSome) = true := by
      intro m hm; simpa [materializeMemberWR, fillGroups] using hpre2 m hm
    have hpostS : ∀ m ∈ post2,
        ((materializeMemberWR unsealDecode groups m).details.isSome) = true := by
      intro m hm; simpa [materializeMemberWR, fillGroups] using hpost2 m hm
    have hpreN : ∀ m ∈ pre2,
        ((materializeMemberWR unsealDecode groups m).details.isNone) = false := by
      intro m hm
      have := hpre2 m hm
      simp [materializeMemberWR, fillGroups, Option.isNone_eq_false_iff,
        Option.isSome_iff_exists] at this ⊢
      exact this
    have hpostN : ∀ m ∈ post2,
        ((materializeMemberWR unsealDecode groups m).details.isNone) = false := by
      intro m hm
      have := hpost2 m hm
      simp [materializeMemberWR, fillGroups, Option.isNone_eq_false_iff,
        Option.isSome_iff_exists] at this ⊢
      exact this
    refine ⟨by simp; omega, ?_, ?_, ?_⟩
    · exact map_map_proj_eq _ _ _ (fun a => rfl) _
    · have hbadS : ((materializeMemberWR unsealDecode groups bad2).details.isSome)
          = false := by
        simp [materializeMemberWR, fillGroups, hbad2]
      have l1 := length_filter_map_of_all (materializeMemberWR unsealDecode groups)
        (fun m => m.details.isSome) pre2 hpreS
      have l2 := length_filter_map_of_all (materializeMemberWR unsealDecode groups)
        (fun m => m.details.isSome) post2 hpostS
      rw [List.map_append, List.filter_append, List.map_cons, List.filter_cons]
      simp [hbadS, l1, l2]
    · have hbadN : ((materializeMemberWR unsealDecode groups bad2).details.isNone)
          = true := by
        simp [materializeMemberWR, fillGroups, hbad2]
      have l1 := filter_map_eq_nil_of_none (materializeMemberWR unsealDecode groups)
        (fun m => m.details.isNone) pre2 hpreN
      have l2 := filter_map_eq_nil_of_none (materializeMemberWR unsealDecode groups)
        (fun m => m.details.isNone) post2 hpostN
      rw [List.map_append, List.filter_append, List.map_cons, List.filter_cons]
      simp [hbadN, l1, l2]

/-- Witness for claim C3: a three-item batch (well-formed, corrupted,
well-formed) materializes to two entities with payload present and one
with payload absent. -/
theorem decrypt_batch_tolerates_one_corrupted_witness :
    ((List.map (materializeMember (fun c => if c == "ok" then some ⟨"d"⟩ else none))
        ([⟨"1", "pkA", some "ok"⟩] ++ (⟨"2", "pkB", some "bad"⟩ : EncryptedMember)
          :: [⟨"3", "pkC", some "ok"⟩])).filter (fun m => m.details.isSome)).length = 2
  ∧ ((List.map (materializeMember (fun c => if c == "ok" then some ⟨"d"⟩ else none))
        ([⟨"1", "pkA", some "ok"⟩] ++ (⟨"2", "pkB", some "bad"⟩ : EncryptedMember)
          :: [⟨"3", "pkC", some "ok"⟩])).filter (fun m => m.details.isNone)).length = 1 := by
  have h := decrypt_batch_tolerates_one_corrupted
    (fun c => if c == "ok" then some ⟨"d"⟩ else none) []
    [⟨"1", "pkA", some "ok"⟩] [⟨"3", "pkC", some "ok"⟩] ⟨"2", "pkB", some "bad"⟩
    [] [] ⟨"x", "pkD", some "bad", []⟩
    (by decide) (by decide) (by decide) (by decide)
    (by simp) (by simp) (by decide) (by decide)
  have heq : decryptMembersWithoutRegistrations (some ())
      (fun c => if c == "ok" then some ⟨"d"⟩ else none)
      ([⟨"1", "pkA", some "ok"⟩] ++ (⟨"2", "pkB", some "bad"⟩ : EncryptedMember)
        :: [⟨"3", "pkC", some "ok"⟩])
      = Except.ok (List.map
        (materializeMember (fun c => if c == "ok" then some ⟨"d"⟩ else none))
        ([⟨"1", "pkA", some "ok"⟩] ++ (⟨"2", "pkB", some "bad"⟩ : EncryptedMember)
          :: [⟨"3", "pkC", some "ok"⟩])) := rfl
  have h1 := h.1 _ heq
  exact ⟨by simpa using h1.2.2.1, h1.2.2.2⟩

/-! ## Patch queue key lemmas (claim C9) -/

/-- Auxiliary: replacing the keyed entry makes the new patch findable
under its key (the key is present, so some entry gets replaced). -/
theorem lookupPatch_replace (store : List TicketPatch) (p : TicketPatch)
    (h : store.any (fun q => q.secret == p.secret) = true) :
    lookupPatch (store.map (fun q => if q.secret == p.secret then p else q)) p.secret
      = some p := by
  induction store with
  | nil => simp at h
  | cons a t ih =>
    rw [List.map_cons]
    by_cases ha : (a.secret == p.secret) = true
    · rw [if_pos ha]
      simp only [lookupPatch]
      rw [List.find?_cons_of_pos _ (by simp)]
    · have ha2 : (a.secret == p.secret) = false := by
        cases hb : a.secret == p.secret
        · rfl
        · exact absurd hb ha
      rw [if_neg ha]
      have ht : t.any (fun q => q.secret == p.secret) = true := by
        simpa [List.any_cons, ha2] using h
      simp only [lookupPatch]
      rw [List.find?_cons_of_neg _ (by simp [ha2])]
      exact ih ht

/-- Auxiliary: appending a patch with a fresh key makes it findable. -/
theorem lookupPatch_append_new (store : List TicketPatch) (p : TicketPatch)
    (h : store.any (fun q => q.secret == p.secret) = false) :
    lookupPatch (store ++ [p]) p.secret = some p := by
  induction store with
  | nil => simp [lookupPatch]
  | cons a t ih =>
    rw [List.any_cons, Bool.or_eq_false_iff] at h
    simpa [lookupPatch, h.1] using ih h.2

/-- IndexedDB `put` finds the stored patch under its key afterwards. -/
theorem lookupPatch_putPatch (store : List TicketPatch) (p : TicketPatch) :
    lookupPatch (putPatch store p) p.secret = some p := by
  unfold putPatch
  cases h : store.any (fun q => q.secret == p.secret) with
  | true => simpa [h] using lookupPatch_replace store p h
  | false => simpa [h] using lookupPatch_append_new store p h

/-- Auxiliary: in a key-unique store containing the key, replacement
leaves exactly one entry with that key. -/
theorem count_replace (store : List TicketPatch) (p : TicketPatch)
    (hkeys : (store.map TicketPatch.secret).Nodup)
    (h : store.any (fun q => q.secret == p.secret) = true) :
    ((store.map (fun q => if q.secret == p.secret then p else q)).filter
        (fun q => q.secret == p.secret)).length = 1 := by
  induction store with
  | nil => simp at h
  | cons a t ih =>
    rw [List.map_cons, List.nodup_cons] at hkeys
    rw [List.map_cons]
    by_cases ha : (a.secret == p.secret) = true
    · have haeq : a.secret = p.secret := by simpa using ha
      have hnone : ∀ q ∈ t, (q.secret == p.secret) = false := by
        intro q hq
        have hne : q.secret ≠ a.secret := by
          intro hc
          exact hkeys.1 (hc ▸ List.mem_map_of_mem TicketPatch.secret hq)
        rw [haeq] at hne
        exact beq_eq_false_iff_ne.mpr hne
      have hfil : ((t.map (fun q => if q.secret == p.secret then p else q)).filter
          (fun q => q.secret == p.secret)) = [] := by
        rw [List.filter_eq_nil_iff]
        intro b hb
        obtain ⟨q, hq, rfl⟩ := List.mem_map.mp hb
        simp [hnone q hq]
      rw [if_pos ha, List.filter_cons_of_pos (by simp), hfil]
      rfl
    · have ha2 : (a.secret == p.secret) = false := by
        cases hb : a.secret == p.secret
        · rfl
        · exact absurd hb ha
      have ht : t.any (fun q => q.secret == p.secret) = true := by
        simpa [List.any_cons, ha2] using h
      rw [if_neg ha, List.filter_cons_of_neg (by simp [ha2])]
      exact ih hkeys.2 ht

/-- Auxiliary: appending a patch with a fresh key leaves exactly one
entry with that key. -/
theorem count_append_new (store : List TicketPatch) (p : TicketPatch)
    (h : store.any (fun q => q.secret == p.secret) = false) :
    (((store ++ [p]).filter (fun q => q.secret == p.secret))).length = 1 := by
  have hfil : store.filter (fun q => q.secret == p.secret) = [] := by
    rw [List.filter_eq_nil_iff]
    intro b hb
    have := List.any_eq_false.mp h b hb
    simpa using this
  simp [List.filter_append, hfil]

/-- IndexedDB `put` into a key-unique store leaves exactly one entry
with the stored key. -/
theorem count_putPatch (store : List TicketPatch) (p : TicketPatch)
    (hkeys : (store.map TicketPatch.secret).Nodup) :
    ((putPatch store p).filter (fun q => q.secret == p.secret)).length = 1 := by
  unfold putPatch
  cases h : store.any (fun q => q.secret == p.secret) with
  | true => simpa [h] using count_replace store p hkeys h
  | false => simpa [h] using count_append_new store p h

/-- IndexedDB `put` preserves key uniqueness of the patch store. -/
theorem nodup_keys_putPatch (store : List TicketPatch) (p : TicketPatch)
    (hkeys : (store.map TicketPatch.secret).Nodup) :
    ((putPatch store p).map TicketPatch.secret).Nodup := by
  unfold putPatch
  cases h : store.any (fun q => q.secret == p.secret) with
  | true =>
    have hmap : (store.map (fun q => if q.secret == p.secret then p else q)).map
        TicketPatch.secret = store.map TicketPatch.secret := by
      rw [List.map_map]
      apply List.map_congr_left
      intro q _
      by_cases hq : (q.secret == p.secret) = true
      · have : q.secret = p.secret := by simpa using hq
        simp [Function.comp, hq, this]
      · have hq2 : (q.secret == p.secret) = false := by
          cases hb : q.secret == p.secret
          · rfl
          · exact absurd hb hq
        simp [Function.comp, hq2]
    rw [if_pos rfl, hmap]
    exact hkeys
  | false =>
    have hmem : p.secret ∉ store.map TicketPatch.secret := by
      intro hc
      obtain ⟨q, hq, hqe⟩ := List.mem_map.mp hc
      have := List.any_eq_false.mp h q hq
      simp [hqe] at this
    simp only [h, Bool.false_eq_true, if_false, List.map_append, List.map_cons,
      List.map_nil]
    rw [List.nodup_append]
    refine ⟨hkeys, List.nodup_singleton _, ?_⟩
    intro x hx hx2
    simp at hx2
    exact hmem (hx2 ▸ hx)

/-- IndexedDB `delete` removes every entry with the deleted key. -/
theorem lookupPatch_deletePatch_self (store : List TicketPatch) (s : String) :
    lookupPatch (deletePatch store s) s = none := by
  simp only [lookupPatch, deletePatch, List.find?_eq_none]
  intro q hq
  have := (List.mem_filter.mp hq).2
  simpa using this

/-- IndexedDB `delete` never introduces an entry for an absent key. -/
theorem lookupPatch_deletePatch_none (store : List TicketPatch) (s x : String)
    (h : lookupPatch store x = none) : lookupPatch (deletePatch store s) x = none := by
  simp only [lookupPatch, List.find?_eq_none] at h ⊢
  intro q hq
  exact h q (List.mem_of_mem_filter hq)

/-- `storeTickets` with patch clearing never introduces a queue entry
for a key that was absent. -/
theorem storeTickets_patch_preserved (tickets : List TicketPrivate)
    (ts : List TicketPrivate) (ps : List TicketPatch) (x : String)
    (h : lookupPatch ps x = none) :
    lookupPatch (storeTickets tickets ts ps true).2 x = none := by
  induction tickets generalizing ts ps with
  | nil => simpa [storeTickets] using h
  | cons t rest ih =>
    have h2 := lookupPatch_deletePatch_none ps t.secret x h
    simpa [storeTickets] using ih (putTicket ts t) (deletePatch ps t.secret) h2

/-- `storeTickets` with patch clearing leaves no queue entry for any
stored ticket. -/
theorem storeTickets_clears_patches (tickets : List TicketPrivate)
    (ts : List TicketPrivate) (ps : List TicketPatch) :
    ∀ t ∈ tickets, lookupPatch (storeTickets tickets ts ps true).2 t.secret = none := by
  induction tickets generalizing ts ps with
  | nil => intro t ht; cases ht
  | cons a rest ih =>
    intro t ht
    rcases List.mem_cons.mp ht with h1 | h2
    · subst h1
      have hdel : lookupPatch (deletePatch ps t.secret) t.secret = none :=
        lookupPatch_deletePatch_self ps t.secret
      simpa [storeTickets] using
        storeTickets_patch_preserved rest (putTicket ts t) (deletePatch ps t.secret)
          t.secret hdel
    · simpa [storeTickets] using ih (putTicket ts a) (deletePatch ps a.secret) t h2

/-- A patch flush never introduces a queue entry for an absent key: once
a key is flushed out of the queue, further sequential flushes keep it
out. -/
theorem trySavePatches_queue_monotone (net : List TicketPatch → PatchResult)
    (s : ManagerState) (x : String) (h : lookupPatch s.ticketPatches x = none) :
    lookupPatch (trySavePatches net s).1.ticketPatches x = none := by
  unfold trySavePatches
  cases hg : s.savingTicketPatches with
  | true => simpa [hg] using h
  | false =>
    cases he : s.ticketPatches.isEmpty with
    | true => simpa [hg, he] using h
    | false =>
      cases hn : net s.ticketPatches with
      | success tickets =>
        simpa [hg, he, hn] using
          storeTickets_patch_preserved tickets s.tickets s.ticketPatches x h
      | networkError => simpa [hg, he, hn] using h
      | otherError e => simpa [hg, he, hn] using h

/-- Claim C9: at most one patch per ticket secret is ever queued — a
second enqueue for the same secret leaves exactly one (the latest)
queued entry; a successful flush deletes the queue entry of every
secret covered by the server response; and a flushed-out key stays out
of the queue under further sequential flushes. -/
theorem patch_queue_at_most_one_per_key (store : List TicketPatch)
    (p1 p2 : TicketPatch)
    (hkeys : (store.map TicketPatch.secret).Nodup) (hsame : p1.secret = p2.secret)
    (tickets ticketStore : List TicketPrivate) (patchStore : List TicketPatch)
    (net : List TicketPatch → PatchResult) (s : ManagerState) (x : String) :
    ((storeTicketPatches (storeTicketPatches store [p1]) [p2]).filter
        (fun q => q.secret == p1.secret)).length = 1
  ∧ lookupPatch (storeTicketPatches (storeTicketPatches store [p1]) [p2]) p1.secret
      = some p2
  ∧ (∀ t ∈ tickets,
      lookupPatch (storeTickets tickets ticketStore patchStore true).2 t.secret = none)
  ∧ (∀ response, net s.ticketPatches = PatchResult.success response →
      s.savingTicketPatches = false → s.ticketPatches.isEmpty = false →
      ∀ t ∈ response, lookupPatch (trySavePatches net s).1.ticketPatches t.secret = none)
  ∧ (lookupPatch s.ticketPatches x = none →
      lookupPatch (trySavePatches net s).1.ticketPatches x = none) := by
  have hstep : storeTicketPatches (storeTicketPatches store [p1]) [p2]
      = putPatch (putPatch store p1) p2 := rfl
  refine ⟨?_, ?_, storeTickets_clears_patches tickets ticketStore patchStore, ?_,
    trySavePatches_queue_monotone net s x⟩
  · rw [hstep, hsame]
    exact count_putPatch (putPatch store p1) p2 (nodup_keys_putPatch store p1 hkeys)
  · rw [hstep, hsame]
    exact lookupPatch_putPatch (putPatch store p1) p2
  · intro response hn hg he t ht
    unfold trySavePatches
    simpa [hg, he, hn] using
      storeTickets_clears_patches response s.tickets s.ticketPatches t ht

/-- Witness for claim C9: double enqueue for one secret, a flush
response covering a stored secret, and a key absent from the queue
staying absent across a flush. -/
theorem patch_queue_at_most_one_per_key_witness :
    ((storeTicketPatches (storeTicketPatches [] [⟨"k", some false⟩]) [⟨"k", some true⟩]).filter
        (fun q => q.secret == (⟨"k", some false⟩ : TicketPatch).secret)).length = 1
  ∧ lookupPatch (storeTicketPatches (storeTicketPatches [] [⟨"k", some false⟩])
        [⟨"k", some true⟩]) (⟨"k", some false⟩ : TicketPatch).secret
      = some ⟨"k", some true⟩
  ∧ lookupPatch (storeTickets [⟨"i", "s", 1, true⟩] [] [⟨"s", some true⟩] true).2
        (⟨"i", "s", 1, true⟩ : TicketPrivate).secret = none
  ∧ lookupPatch (trySavePatches (fun _ => PatchResult.success [⟨"i", "s", 1, true⟩])
        ⟨false, false, false, none, none, [], [], [⟨"s", some true⟩], [], []⟩).1.ticketPatches
        (⟨"i", "s", 1, true⟩ : TicketPrivate).secret = none
  ∧ lookupPatch (trySavePatches (fun _ => PatchResult.networkError)
        ⟨false, false, false, none, none, [], [], [⟨"s", some true⟩], [], []⟩).1.ticketPatches
        "absent" = none := by
  have h := patch_queue_at_most_one_per_key [] ⟨"k", some false⟩ ⟨"k", some true⟩
    (by simp) rfl [⟨"i", "s", 1, true⟩] [] [⟨"s", some true⟩]
    (fun _ => PatchResult.success [⟨"i", "s", 1, true⟩])
    ⟨false, false, false, none, none, [], [], [⟨"s", some true⟩], [], []⟩ "absent"
  have h2 := patch_queue_at_most_one_per_key [] ⟨"k", some false⟩ ⟨"k", some true⟩
    (by simp) rfl [⟨"i", "s", 1, true⟩] [] [⟨"s", some true⟩]
    (fun _ => PatchResult.networkError)
    ⟨false, false, false, none, none, [], [], [⟨"s", some true⟩], [], []⟩ "absent"
  refine ⟨h.1, h.2.1, h.2.2.1 ⟨"i", "s", 1, true⟩ (by simp), ?_, ?_⟩
  · exact h.2.2.2.1 [⟨"i", "s", 1, true⟩] rfl rfl rfl ⟨"i", "s", 1, true⟩ (by simp)
  · exact h2.2.2.2.2 (by decide)

end Stamhoofd
